import Mathlib

/-!
Shallow embedding of the Rabbitry Farm Management backend (main.py, schemas.py).

Dates are modelled as integers (ordinal day numbers); a date-valued field of a
stored document is a `DateField`: absent (None or empty), present but
unparseable, or a parsed day number. `date.today()` becomes an explicit
`today : Int` parameter, and `timedelta(days = n)` becomes integer addition.
String rendering of a date (isoformat) is modelled by `dateStr`.
-/

namespace Rabbitry

/-- A date-valued field of a stored document: absent (None or empty string),
present but unparseable, or parsed to an ordinal day number. -/
inductive DateField where
  | absent
  | invalid
  | valid (d : Int)
deriving DecidableEq, Repr

/-- Rendering of a date as a string (isoformat in the source). -/
def dateStr (d : Int) : String := toString d

/-- parse_date_safe (main.py): returns None for an absent or unparseable
value, the parsed date otherwise; never raises. -/
def parse_date_safe : DateField → Option Int
  | .absent => none
  | .invalid => none
  | .valid d => some d

/-- A Rabbit document (schemas.py Rabbit), restricted to the fields the
planner reads. `status` is optional because the planner reads it with
get("status", "active"). -/
structure Rabbit where
  tag : String
  sex : String
  status : Option String
  dob : DateField
  sire_tag : Option String
  dam_tag : Option String
deriving DecidableEq, Repr

/-- r.get("status", "active") in the source. -/
def statusOf (r : Rabbit) : String := r.status.getD "active"

/-- age_in_days (main.py, inside breeding_plan): today - dob when dob is
present and parseable, otherwise None. -/
def age_in_days (today : Int) (r : Rabbit) : Option Int :=
  match r.dob with
  | .valid d => some (today - d)
  | _ => none

/-- Candidate does: sex == "doe" and status (defaulted) == "active". -/
def candidateDoes (rabbits : List Rabbit) : List Rabbit :=
  rabbits.filter (fun r => r.sex == "doe" && statusOf r == "active")

/-- Candidate bucks: sex == "buck" and status (defaulted) == "active". -/
def candidateBucks (rabbits : List Rabbit) : List Rabbit :=
  rabbits.filter (fun r => r.sex == "buck" && statusOf r == "active")

/-- A Breeding document (schemas.py Breeding), restricted to the fields the
planner reads. -/
structure Breeding where
  doe_tag : String
  date_bred : DateField
deriving DecidableEq, Repr

/-- The last_bred index of breeding_plan: for each doe tag the latest
parseable date_bred across the breeding records; records with an empty doe
tag, or an absent or unparseable date, are skipped silently. -/
def lastBred (breedings : List Breeding) : String → Option Int :=
  breedings.foldl
    (fun m b =>
      match b.date_bred with
      | .valid d =>
          if b.doe_tag ≠ "" then
            fun t =>
              if t = b.doe_tag then
                match m b.doe_tag with
                | none => some d
                | some d0 => if d0 < d then some d else some d0
              else m t
          else m
      | _ => m)
    (fun _ => none)

/-- BreedingPlanInput (schemas.py) with its defaults. -/
structure BreedingPlanInput where
  min_doe_age_days : Int := 154
  min_buck_age_days : Int := 154
  cooldown_days : Int := 14
deriving DecidableEq, Repr

/-- The doe age skip of breeding_plan: skip when the age is known and below
the threshold; an unknown age never skips. -/
def doeAgeSkip (today : Int) (params : BreedingPlanInput) (r : Rabbit) : Bool :=
  match age_in_days today r with
  | some a => a < params.min_doe_age_days
  | none => false

/-- The buck age skip of breeding_plan: skip when the age is known and below
the threshold; an unknown age never skips. -/
def buckAgeSkip (today : Int) (params : BreedingPlanInput) (r : Rabbit) : Bool :=
  match age_in_days today r with
  | some a => a < params.min_buck_age_days
  | none => false

/-- The cooldown skip of breeding_plan: skip when a last-bred date exists and
today - last_bred < cooldown_days. -/
def cooldownSkip (today : Int) (params : BreedingPlanInput)
    (lb : String → Option Int) (doe : Rabbit) : Bool :=
  match lb doe.tag with
  | some d => today - d < params.cooldown_days
  | none => false

/-- Skip a buck whose tag equals the doe tag. -/
def sameTagSkip (doe b : Rabbit) : Bool := b.tag == doe.tag

/-- Skip a buck whose tag is the recorded sire or dam of the doe. -/
def parentOfDoeSkip (doe b : Rabbit) : Bool :=
  decide (some b.tag = doe.sire_tag ∨ some b.tag = doe.dam_tag)

/-- Skip a buck whose recorded sire or dam is the doe tag. -/
def parentOfBuckSkip (doe b : Rabbit) : Bool :=
  decide (some doe.tag = b.sire_tag ∨ some doe.tag = b.dam_tag)

/-- The inner buck loop of breeding_plan: scan the candidate bucks in order,
applying the age, same-tag and relatedness skips, and return the first buck
passing every check (the break in the source). -/
def scanBucks (today : Int) (params : BreedingPlanInput) (doe : Rabbit) :
    List Rabbit → Option Rabbit
  | [] => none
  | b :: rest =>
    if buckAgeSkip today params b then scanBucks today params doe rest
    else if sameTagSkip doe b then scanBucks today params doe rest
    else if parentOfDoeSkip doe b then scanBucks today params doe rest
    else if parentOfBuckSkip doe b then scanBucks today params doe rest
    else some b

/-- A suggested pair as built by breeding_plan. -/
structure SuggestedPair where
  doe_tag : String
  buck_tag : String
  reason : String
  expected_kindling : Int
deriving DecidableEq, Repr

/-- The pair record appended by breeding_plan for a doe and chosen buck. -/
def mkPair (today : Int) (doe b : Rabbit) : SuggestedPair :=
  { doe_tag := doe.tag
    buck_tag := b.tag
    reason := "Meets age and cooldown; not closely related"
    expected_kindling := today + 31 }

/-- The outer doe loop of breeding_plan: for each candidate doe apply the age
and cooldown skips, scan the bucks, and append at most one pair per doe. -/
def planPairs (today : Int) (params : BreedingPlanInput)
    (lb : String → Option Int) (bucks : List Rabbit) :
    List Rabbit → List SuggestedPair
  | [] => []
  | doe :: rest =>
    if doeAgeSkip today params doe then planPairs today params lb bucks rest
    else if cooldownSkip today params lb doe then planPairs today params lb bucks rest
    else
      match scanBucks today params doe bucks with
      | some b => mkPair today doe b :: planPairs today params lb bucks rest
      | none => planPairs today params lb bucks rest

/-- A task stub as built by breeding_plan. -/
structure TaskStub where
  title : String
  due_date : Int
  assigned_to : String
  rabbit_tag : String
  status : String
  notes : String
deriving DecidableEq, Repr

/-- The task stub emitted for a suggested pair. -/
def taskOf (today : Int) (p : SuggestedPair) : TaskStub :=
  { title := "Breed " ++ p.doe_tag ++ " to " ++ p.buck_tag
    due_date := today
    assigned_to := "breeding"
    rabbit_tag := p.doe_tag
    status := "todo"
    notes := "Expected kindling " ++ dateStr p.expected_kindling }

/-- The summary block of the breeding_plan response. -/
structure PlanSummary where
  eligible_does : Nat
  eligible_bucks : Nat
  suggested_count : Nat
deriving DecidableEq, Repr

/-- The breeding_plan response. -/
structure PlanResult where
  suggested_pairs : List SuggestedPair
  tasks : List TaskStub
  summary : PlanSummary
deriving DecidableEq, Repr

/-- breeding_plan (main.py): filter candidates, index last breedings, run the
doe loop, derive one task per suggested pair, and report the summary. -/
def breeding_plan (today : Int) (params : BreedingPlanInput)
    (rabbits : List Rabbit) (breedings : List Breeding) : PlanResult :=
  let does := candidateDoes rabbits
  let bucks := candidateBucks rabbits
  let lb := lastBred breedings
  let pairs := planPairs today params lb bucks does
  { suggested_pairs := pairs
    tasks := pairs.map (taskOf today)
    summary :=
      { eligible_does := does.length
        eligible_bucks := bucks.length
        suggested_count := pairs.length } }

/-- A buck passes every per-buck check of the inner loop for a given doe. -/
def buckEligible (today : Int) (params : BreedingPlanInput) (doe b : Rabbit) : Bool :=
  !buckAgeSkip today params b && !sameTagSkip doe b
    && !parentOfDoeSkip doe b && !parentOfBuckSkip doe b

/-- A MedicationSchedule document (schemas.py MedicationSchedule), restricted
to the date fields that the active_only filter reads. -/
structure MedRecord where
  start_date : DateField
  end_date : DateField
deriving DecidableEq, Repr

/-- The start_date read of list_medication: None when the field is absent;
date.fromisoformat with no try/except, so an unparseable value raises. -/
def parseStart : DateField → Except Unit (Option Int)
  | .absent => .ok none
  | .invalid => .error ()
  | .valid d => .ok (some d)

/-- The end_date read of list_medication: date.fromisoformat inside
try/except, so an absent or unparseable value becomes None. -/
def parseEnd : DateField → Option Int
  | .valid d => some d
  | _ => none

/-- The active test of list_medication: sd and sd <= today and
(ed is None or today <= ed). -/
def isActive (today : Int) (sd ed : Option Int) : Bool :=
  match sd with
  | none => false
  | some s => decide (s ≤ today) &&
      (match ed with
       | none => true
       | some e => decide (today ≤ e))

/-- The active_only loop of list_medication: keep the active records; an
unparseable start_date raises out of the whole request. -/
def activeFilter (today : Int) : List MedRecord → Except Unit (List MedRecord)
  | [] => .ok []
  | r :: rs =>
    match parseStart r.start_date with
    | .error e => .error e
    | .ok sd =>
      match activeFilter today rs with
      | .error e => .error e
      | .ok rest =>
        if isActive today sd (parseEnd r.end_date) then .ok (r :: rest)
        else .ok rest

/-- list_medication (main.py), date logic only: with active_only the today
query parameter is parsed safely (falling back to the system date) and the
records are filtered through the active window; otherwise all records are
returned. -/
def list_medication (sysToday : Int) (todayParam : DateField)
    (active_only : Bool) (records : List MedRecord) :
    Except Unit (List MedRecord) :=
  if active_only then
    activeFilter ((parse_date_safe todayParam).getD sysToday) records
  else .ok records

/-- A rule of the symptom checker table. -/
structure Rule where
  match_any : List String
  condition : String
  severity : String
  actions : List String
  tips : List String
deriving DecidableEq, Repr

/-- The static rule table of symptom_check (main.py), in source order. -/
def rules : List Rule :=
  [ { match_any := ["diarrhea", "runny stool"]
      condition := "Enteritis/Diarrhea"
      severity := "medium"
      actions :=
        [ "Isolate affected rabbit and ensure hydration"
        , "Remove fresh greens; offer hay and water"
        , "Consult vet for antidiarrheals if severe or persistent" ]
      tips := ["Monitor stool consistency and appetite daily"] }
  , { match_any := ["head tilt", "nystagmus", "loss of balance"]
      condition := "Possible E. cuniculi or inner ear infection"
      severity := "high"
      actions :=
        [ "Seek veterinary evaluation promptly"
        , "Minimize stress and provide safe padded area" ]
      tips := ["Record onset time and any trauma history"] }
  , { match_any := ["sneezing", "nasal discharge", "runny nose"]
      condition := "Upper respiratory signs"
      severity := "medium"
      actions :=
        [ "Check environment (dust, ammonia, drafts)"
        , "Consult vet; avoid penicillins orally in rabbits" ]
      tips := ["Track temperature and breathing effort"] }
  , { match_any := ["not eating", "anorexia", "no feces", "bloat"]
      condition := "GI stasis"
      severity := "high"
      actions :=
        [ "Urgent vet care if severe; encourage hydration"
        , "Provide safe warmth and gentle tummy massage if trained" ]
      tips := ["Log fecal output and weight every 12h"] }
  , { match_any := ["mites", "itching", "flaky skin", "crusty ears"]
      condition := "Parasites (fur/ear mites)"
      severity := "low"
      actions :=
        [ "Topical ivermectin or selamectin per vet guidance"
        , "Clean environment; treat in-contact rabbits" ]
      tips := ["Recheck in 7-14 days"] }
  ]

/-- str.lower(), modelled characterwise (the symptom phrases are ASCII). -/
def strLower (s : String) : String := ⟨s.data.map Char.toLower⟩

/-- str.strip(): drop whitespace from both ends. -/
def strStrip (s : String) : String :=
  ⟨((s.data.dropWhile Char.isWhitespace).reverse.dropWhile Char.isWhitespace).reverse⟩

/-- The symptom normalisation of symptom_check: drop entries that strip to
empty, then strip and lowercase. The source builds a set; a list models it
because only membership is consumed downstream. -/
def normalizeSymptoms (ss : List String) : List String :=
  (ss.filter (fun s => strStrip s ≠ "")).map (fun s => strLower (strStrip s))

/-- symptoms and rule match_any intersect (nonempty set intersection). -/
def ruleMatches (syms : List String) (r : Rule) : Bool :=
  r.match_any.any (fun p => syms.contains p)

/-- A finding appended for a matched rule. -/
structure Finding where
  condition : String
  severity : String
  immediate_actions : List String
  monitoring_tips : List String
deriving DecidableEq, Repr

/-- The findings loop of symptom_check: one finding per matched rule, in rule
order. -/
def findingsOf (syms : List String) : List Finding :=
  (rules.filter (ruleMatches syms)).map
    (fun r => ⟨r.condition, r.severity, r.actions, r.tips⟩)

/-- The overall severity of symptom_check: high if any finding is high, else
medium if any is medium, else low. -/
def overallSeverity (fs : List Finding) : String :=
  if fs.any (fun f => f.severity == "high") then "high"
  else if fs.any (fun f => f.severity == "medium") then "medium"
  else "low"

/-- The symptom_check response, restricted to the fields derived from the
symptom list (the optional history join reads external storage). -/
structure SymptomCheckResult where
  probable_conditions : List Finding
  overall_severity : String
  disclaimer : String
deriving DecidableEq, Repr

/-- symptom_check (main.py): normalise the symptoms, match the rule table,
derive the overall severity, attach the fixed disclaimer. -/
def symptom_check (symptoms : List String) : SymptomCheckResult :=
  let syms := normalizeSymptoms symptoms
  let fs := findingsOf syms
  { probable_conditions := fs
    overall_severity := overallSeverity fs
    disclaimer := "This is guidance only and not a diagnosis. Consult a veterinarian." }

/-- Numeric rank of a severity string: high 2, medium 1, anything else 0. -/
def sevRank (s : String) : Nat :=
  if s == "high" then 2 else if s == "medium" then 1 else 0

/-- The active window as the specification states it: start_date present with
start ≤ today, and end_date absent or today ≤ end. -/
def meetsActiveWindow (today : Int) (r : MedRecord) : Bool :=
  (match r.start_date with
   | .valid s => decide (s ≤ today)
   | _ => false)
  && (match r.end_date with
      | .absent => true
      | .valid e => decide (today ≤ e)
      | .invalid => false)

end Rabbitry

namespace Rabbitry

/-- The inner buck loop with its break is exactly a first-match search. -/
theorem scanBucks_eq_find (today : Int) (params : BreedingPlanInput)
    (doe : Rabbit) (bs : List Rabbit) :
    scanBucks today params doe bs = bs.find? (buckEligible today params doe) := by
  induction bs with
  | nil => rfl
  | cons b rest ih =>
    cases h1 : buckAgeSkip today params b <;>
      cases h2 : sameTagSkip doe b <;>
        cases h3 : parentOfDoeSkip doe b <;>
          cases h4 : parentOfBuckSkip doe b <;>
            simp [scanBucks, List.find?, buckEligible, h1, h2, h3, h4, ih]

/-- The outer doe loop is a filterMap: at most one pair per doe, in order. -/
theorem planPairs_eq_filterMap (today : Int) (params : BreedingPlanInput)
    (lb : String → Option Int) (bucks : List Rabbit) (does : List Rabbit) :
    planPairs today params lb bucks does
      = does.filterMap (fun doe =>
          if doeAgeSkip today params doe || cooldownSkip today params lb doe then none
          else (scanBucks today params doe bucks).map (mkPair today doe)) := by
  induction does with
  | nil => rfl
  | cons doe rest ih =>
    cases h1 : doeAgeSkip today params doe <;>
      cases h2 : cooldownSkip today params lb doe <;>
        cases h3 : scanBucks today params doe bucks <;>
          simp [planPairs, List.filterMap_cons, h1, h2, h3, ih]

/-- C1: at most one pair per candidate doe per call, and the buck of each
pair is the first buck, in input collection order, that passes the age,
same-tag and relatedness checks; no buck is scanned for a doe past her first
match. -/
theorem C1_one_pair_first_eligible_buck (today : Int) (params : BreedingPlanInput)
    (rabbits : List Rabbit) (breedings : List Breeding) :
    (breeding_plan today params rabbits breedings).suggested_pairs
      = (candidateDoes rabbits).filterMap (fun doe =>
          if doeAgeSkip today params doe
              || cooldownSkip today params (lastBred breedings) doe then none
          else ((candidateBucks rabbits).find? (buckEligible today params doe)).map
            (mkPair today doe))
    ∧ (breeding_plan today params rabbits breedings).suggested_pairs.length
        ≤ (candidateDoes rabbits).length := by
  have h : (breeding_plan today params rabbits breedings).suggested_pairs
      = (candidateDoes rabbits).filterMap (fun doe =>
          if doeAgeSkip today params doe
              || cooldownSkip today params (lastBred breedings) doe then none
          else ((candidateBucks rabbits).find? (buckEligible today params doe)).map
            (mkPair today doe)) := by
    show planPairs today params (lastBred breedings) (candidateBucks rabbits)
        (candidateDoes rabbits) = _
    rw [planPairs_eq_filterMap]
    exact List.filterMap_congr (fun doe _ => by rw [scanBucks_eq_find])
  exact ⟨h, by rw [h]; exact List.length_filterMap_le _ _⟩

end Rabbitry

namespace Rabbitry

/-- A buck returned by the scan passed every per-buck check. -/
theorem scanBucks_some_eligible (today : Int) (params : BreedingPlanInput)
    (doe b : Rabbit) (bs : List Rabbit) (h : scanBucks today params doe bs = some b) :
    buckEligible today params doe b = true := by
  rw [scanBucks_eq_find] at h
  exact List.find?_some h

/-- C2: the relatedness exclusion is symmetric and one generation deep: a
buck related to the doe by tag equality or by a recorded parent link in
either direction is never returned by the buck scan; a suggested pair never
has equal doe and buck tags; and no ancestor check exists beyond one
generation, witnessed by a plan that pairs a doe with her recorded
grandsire. -/
theorem C2_relatedness_symmetric_one_generation :
    (∀ (today : Int) (params : BreedingPlanInput) (doe buck : Rabbit)
        (bs : List Rabbit),
        (buck.tag = doe.tag ∨ doe.sire_tag = some buck.tag
          ∨ doe.dam_tag = some buck.tag ∨ buck.sire_tag = some doe.tag
          ∨ buck.dam_tag = some doe.tag) →
        scanBucks today params doe bs ≠ some buck)
    ∧ (∀ (today : Int) (params : BreedingPlanInput) (rabbits : List Rabbit)
        (breedings : List Breeding) (p : SuggestedPair),
        p ∈ (breeding_plan today params rabbits breedings).suggested_pairs →
        p.doe_tag ≠ p.buck_tag)
    ∧ (breeding_plan 1000 {}
          [⟨"D", "doe", none, .absent, some "S", none⟩,
           ⟨"G", "buck", none, .absent, none, none⟩,
           ⟨"S", "buck", none, .absent, some "G", none⟩] []).suggested_pairs
        = [⟨"D", "G", "Meets age and cooldown; not closely related", 1031⟩] := by
  refine ⟨?fst, ?snd, ?thd⟩
  case snd =>
    intro today params rabbits breedings p hp
    have hmem : p ∈ planPairs today params (lastBred breedings)
        (candidateBucks rabbits) (candidateDoes rabbits) := hp
    rw [planPairs_eq_filterMap] at hmem
    obtain ⟨doe, _, hdoe⟩ := List.mem_filterMap.mp hmem
    by_cases hskip : doeAgeSkip today params doe
        || cooldownSkip today params (lastBred breedings) doe
    · rw [if_pos hskip] at hdoe; exact absurd hdoe (by simp)
    rw [if_neg hskip] at hdoe
    cases hsc : scanBucks today params doe (candidateBucks rabbits) with
    | none => rw [hsc] at hdoe; exact absurd hdoe (by simp)
    | some b =>
        rw [hsc] at hdoe
        have he := scanBucks_some_eligible today params doe b _ hsc
        rw [buckEligible] at he
        simp only [Bool.and_eq_true, Bool.not_eq_true'] at he
        have hne : b.tag ≠ doe.tag := by
          have := he.1.1.2
          rw [sameTagSkip] at this
          simpa using this
        obtain rfl : mkPair today doe b = p := by simpa using hdoe
        simpa [mkPair] using fun hdb => hne hdb.symm
  · intro today params doe buck bs hrel
    induction bs with
    | nil => simp [scanBucks]
    | cons b rest ih =>
      rw [scanBucks]
      by_cases h1 : buckAgeSkip today params b
      · rw [if_pos h1]; exact ih
      rw [if_neg h1]
      by_cases h2 : sameTagSkip doe b
      · rw [if_pos h2]; exact ih
      rw [if_neg h2]
      by_cases h3 : parentOfDoeSkip doe b
      · rw [if_pos h3]; exact ih
      rw [if_neg h3]
      by_cases h4 : parentOfBuckSkip doe b
      · rw [if_pos h4]; exact ih
      rw [if_neg h4]
      intro hsome
      obtain rfl : b = buck := Option.some.inj hsome
      rw [sameTagSkip] at h2
      simp only [beq_iff_eq] at h2
      rw [parentOfDoeSkip] at h3
      simp only [decide_eq_true_eq, not_or] at h3
      rw [parentOfBuckSkip] at h4
      simp only [decide_eq_true_eq, not_or] at h4
      rcases hrel with h | h | h | h | h
      · exact h2 h
      · exact h3.1 h.symm
      · exact h3.2 h.symm
      · exact h4.1 h.symm
      · exact h4.2 h.symm
  · decide

/-- Concrete instance of the relatedness exclusion: a buck sharing the doe
tag is never picked. -/
theorem C2_witness :
    scanBucks 0 {} ⟨"A", "doe", none, .absent, none, none⟩
        [⟨"A", "buck", none, .absent, none, none⟩]
      ≠ some ⟨"A", "buck", none, .absent, none, none⟩ :=
  C2_relatedness_symmetric_one_generation.1 0 {} _ _ _ (Or.inl rfl)

end Rabbitry

namespace Rabbitry

/-- C3: the doe age threshold is inclusive: a doe whose known age equals
min_doe_age_days is not skipped by the age check, while one day younger is
skipped. -/
theorem C3_doe_age_threshold_inclusive (today : Int) (params : BreedingPlanInput)
    (doe : Rabbit) :
    (age_in_days today doe = some params.min_doe_age_days →
      doeAgeSkip today params doe = false)
    ∧ (age_in_days today doe = some (params.min_doe_age_days - 1) →
      doeAgeSkip today params doe = true) := by
  refine ⟨fun h => by simp [doeAgeSkip, h], fun h => by simp [doeAgeSkip, h]⟩

/-- A doe aged exactly 154 days under the default parameters is not skipped;
aged 153 days she is skipped. -/
theorem C3_witness :
    doeAgeSkip 1000 {} ⟨"D", "doe", none, .valid 846, none, none⟩ = false
    ∧ doeAgeSkip 1000 {} ⟨"E", "doe", none, .valid 847, none, none⟩ = true :=
  ⟨(C3_doe_age_threshold_inclusive 1000 {} _).1 rfl,
   (C3_doe_age_threshold_inclusive 1000 {} _).2 rfl⟩

/-- C4: the cooldown threshold is inclusive: a doe whose last-bred date is
exactly cooldown_days ago is not skipped by the cooldown check, while one
day fewer is skipped. -/
theorem C4_cooldown_threshold_inclusive (today : Int) (params : BreedingPlanInput)
    (breedings : List Breeding) (doe : Rabbit) (d : Int)
    (h : lastBred breedings doe.tag = some d) :
    (today - d = params.cooldown_days →
      cooldownSkip today params (lastBred breedings) doe = false)
    ∧ (today - d = params.cooldown_days - 1 →
      cooldownSkip today params (lastBred breedings) doe = true) := by
  constructor <;> intro h2 <;> simp [cooldownSkip, h] <;> omega

/-- A doe last bred exactly 14 days ago under the default parameters is not
skipped; last bred 13 days ago she is skipped. -/
theorem C4_witness :
    cooldownSkip 1000 {} (lastBred [⟨"D", .valid 986⟩])
        ⟨"D", "doe", none, .absent, none, none⟩ = false
    ∧ cooldownSkip 1000 {} (lastBred [⟨"E", .valid 987⟩])
        ⟨"E", "doe", none, .absent, none, none⟩ = true :=
  ⟨(C4_cooldown_threshold_inclusive 1000 {} [⟨"D", .valid 986⟩]
      ⟨"D", "doe", none, .absent, none, none⟩ 986 rfl).1 rfl,
   (C4_cooldown_threshold_inclusive 1000 {} [⟨"E", .valid 987⟩]
      ⟨"E", "doe", none, .absent, none, none⟩ 987 rfl).2 rfl⟩

/-- C6: a rabbit whose dob is absent or unparseable has unknown age and is
never excluded by the age checks, neither as doe nor as buck. -/
theorem C6_unknown_age_never_excluded (today : Int) (params : BreedingPlanInput)
    (r : Rabbit) (h : r.dob = .absent ∨ r.dob = .invalid) :
    age_in_days today r = none ∧ doeAgeSkip today params r = false
    ∧ buckAgeSkip today params r = false := by
  have hage : age_in_days today r = none := by
    rcases h with h | h <;> simp [age_in_days, h]
  exact ⟨hage, by simp [doeAgeSkip, hage], by simp [buckAgeSkip, hage]⟩

/-- A rabbit with an absent dob passes both age checks. -/
theorem C6_witness :
    age_in_days 1000 (⟨"X", "doe", none, .absent, none, none⟩ : Rabbit) = none
    ∧ doeAgeSkip 1000 {} ⟨"X", "doe", none, .absent, none, none⟩ = false
    ∧ buckAgeSkip 1000 {} ⟨"X", "doe", none, .absent, none, none⟩ = false :=
  C6_unknown_age_never_excluded 1000 {} _ (Or.inl rfl)

end Rabbitry

namespace Rabbitry

/-- On records whose start_date parses (or is absent), the active_only loop
returns normally with exactly the records passing the active test. -/
theorem activeFilter_eq_filter (today : Int) (recs : List MedRecord)
    (h : ∀ r ∈ recs, r.start_date ≠ .invalid) :
    activeFilter today recs
      = .ok (recs.filter (fun r =>
          isActive today (parse_date_safe r.start_date) (parseEnd r.end_date))) := by
  induction recs with
  | nil => rfl
  | cons r rs ih =>
    have hr := h r (List.mem_cons_self r rs)
    have ih2 := ih (fun x hx => h x (List.mem_cons_of_mem r hx))
    cases hsd : r.start_date with
    | invalid => exact absurd hsd hr
    | absent =>
        simp [activeFilter, parseStart, hsd, ih2, List.filter_cons, parse_date_safe,
          isActive]
    | valid d =>
        simp only [activeFilter, parseStart, hsd, ih2, List.filter_cons,
          parse_date_safe]
        by_cases hA : isActive today (some d) (parseEnd r.end_date) = true
        · simp [hA]
        · simp [hA]

/-- C5 counterexample: a medication record whose start_date is present but
unparseable makes the active_only filter raise instead of returning
normally. -/
theorem C5_counterexample :
    list_medication 100 .absent true [⟨.invalid, .absent⟩] = .error () := rfl

/-- C5 (amended): an unparseable end_date is swallowed: it parses to None
exactly as an absent end_date does, so the end constraint is not applicable,
and the active_only filter returns normally whenever no record has a
present-but-unparseable start_date; each record is then kept exactly when
its safely parsed dates pass the active test. -/
theorem C5_end_date_swallowed (today : Int) (recs : List MedRecord)
    (h : ∀ r ∈ recs, r.start_date ≠ .invalid) :
    activeFilter today recs
      = .ok (recs.filter (fun r =>
          isActive today (parse_date_safe r.start_date) (parseEnd r.end_date)))
    ∧ parseEnd .invalid = parseEnd .absent :=
  ⟨activeFilter_eq_filter today recs h, rfl⟩

/-- The filter returns normally on a record with a valid start_date and an
unparseable end_date, keeping the record. -/
theorem C5_witness :
    activeFilter 100 [⟨DateField.valid 95, DateField.invalid⟩]
      = .ok [⟨DateField.valid 95, DateField.invalid⟩] := by
  have h := (C5_end_date_swallowed 100
    [⟨DateField.valid 95, DateField.invalid⟩] (by decide)).1
  simpa using h

end Rabbitry

namespace Rabbitry

/-- C7: with active_only set and all dates parseable, the medication listing
returns exactly the records with start_date ≤ today and end_date absent or
today ≤ end_date; in particular a schedule started five days ago with no end
date is included and one that ended yesterday is excluded. -/
theorem C7_active_only_window (sysToday today : Int) (recs : List MedRecord)
    (h : ∀ r ∈ recs, r.start_date ≠ .invalid ∧ r.end_date ≠ .invalid) :
    (list_medication sysToday (.valid today) true recs
      = .ok (recs.filter (meetsActiveWindow today)))
    ∧ list_medication 100 (.valid 100) true [⟨.valid 95, .absent⟩]
        = .ok [⟨.valid 95, .absent⟩]
    ∧ list_medication 100 (.valid 100) true [⟨.valid 95, .valid 99⟩] = .ok [] := by
  refine ⟨?_, rfl, rfl⟩
  show activeFilter today recs = _
  rw [activeFilter_eq_filter today recs (fun r hr => (h r hr).1)]
  congr 1
  apply List.filter_congr
  intro r hr
  obtain ⟨h1, h2⟩ := h r hr
  cases hs : r.start_date with
  | invalid => exact absurd hs h1
  | absent =>
      simp [isActive, parse_date_safe, parseEnd, meetsActiveWindow, hs]
  | valid s =>
      cases he : r.end_date with
      | invalid => exact absurd he h2
      | absent =>
          simp [isActive, parse_date_safe, parseEnd, meetsActiveWindow, hs, he]
      | valid e =>
          simp [isActive, parse_date_safe, parseEnd, meetsActiveWindow, hs, he]

/-- Concrete run of the active window: started ten days ago with no end date
is kept, ended five days ago is dropped, absent start is dropped. -/
theorem C7_witness :
    list_medication 0 (.valid 100) true
        [⟨DateField.valid 90, DateField.absent⟩,
         ⟨DateField.valid 90, DateField.valid 95⟩,
         ⟨DateField.absent, DateField.absent⟩]
      = .ok [⟨DateField.valid 90, DateField.absent⟩] := by
  have h := (C7_active_only_window 0 100
    [⟨DateField.valid 90, DateField.absent⟩,
     ⟨DateField.valid 90, DateField.valid 95⟩,
     ⟨DateField.absent, DateField.absent⟩] (by decide)).1
  simpa using h

end Rabbitry

namespace Rabbitry

theorem sevRank_le_two (s : String) : sevRank s ≤ 2 := by
  unfold sevRank
  split
  · omega
  split <;> omega

theorem rankMax_le_two (fs : List Finding) :
    (fs.map (fun f => sevRank f.severity)).foldr max 0 ≤ 2 := by
  induction fs with
  | nil => simp
  | cons f rest ih =>
    simp only [List.map_cons, List.foldr_cons]
    exact max_le (sevRank_le_two f.severity) ih

theorem any_high_rank (fs : List Finding)
    (h : fs.any (fun f => f.severity == "high") = true) :
    2 ≤ (fs.map (fun f => sevRank f.severity)).foldr max 0 := by
  induction fs with
  | nil => simp at h
  | cons f rest ih =>
    simp only [List.any_cons, Bool.or_eq_true] at h
    simp only [List.map_cons, List.foldr_cons]
    rcases h with h | h
    · have : f.severity = "high" := by simpa using h
      simp [this, sevRank]
    · exact le_trans (ih h) (le_max_right _ _)

theorem no_high_rank (fs : List Finding)
    (h : fs.any (fun f => f.severity == "high") = false) :
    (fs.map (fun f => sevRank f.severity)).foldr max 0 ≤ 1 := by
  induction fs with
  | nil => simp
  | cons f rest ih =>
    simp only [List.any_cons, Bool.or_eq_false_iff] at h
    simp only [List.map_cons, List.foldr_cons]
    refine max_le ?_ (ih h.2)
    have : f.severity ≠ "high" := by simpa using h.1
    unfold sevRank
    rw [if_neg (by simpa using this)]
    split <;> omega

theorem any_medium_rank (fs : List Finding)
    (h : fs.any (fun f => f.severity == "medium") = true) :
    1 ≤ (fs.map (fun f => sevRank f.severity)).foldr max 0 := by
  induction fs with
  | nil => simp at h
  | cons f rest ih =>
    simp only [List.any_cons, Bool.or_eq_true] at h
    simp only [List.map_cons, List.foldr_cons]
    rcases h with h | h
    · have hf : f.severity = "medium" := by simpa using h
      simp only [hf]
      have : sevRank "medium" = 1 := rfl
      rw [this]
      exact le_trans (le_refl 1) (le_max_left _ _)
    · exact le_trans (ih h) (le_max_right _ _)

theorem no_match_rank (fs : List Finding)
    (hh : fs.any (fun f => f.severity == "high") = false)
    (hm : fs.any (fun f => f.severity == "medium") = false) :
    (fs.map (fun f => sevRank f.severity)).foldr max 0 = 0 := by
  induction fs with
  | nil => simp
  | cons f rest ih =>
    simp only [List.any_cons, Bool.or_eq_false_iff] at hh hm
    simp only [List.map_cons, List.foldr_cons]
    rw [ih hh.2 hm.2]
    have h1 : f.severity ≠ "high" := by simpa using hh.1
    have h2 : f.severity ≠ "medium" := by simpa using hm.1
    unfold sevRank
    rw [if_neg (by simpa using h1), if_neg (by simpa using h2)]
    simp

theorem overallSeverity_rank (fs : List Finding) :
    sevRank (overallSeverity fs)
      = (fs.map (fun f => sevRank f.severity)).foldr max 0 := by
  unfold overallSeverity
  by_cases hh : fs.any (fun f => f.severity == "high") = true
  · rw [if_pos hh]
    have h1 := any_high_rank fs hh
    have h2 := rankMax_le_two fs
    have h3 : sevRank "high" = 2 := rfl
    omega
  · rw [if_neg hh]
    rw [Bool.not_eq_true] at hh
    by_cases hm : fs.any (fun f => f.severity == "medium") = true
    · rw [if_pos hm]
      have h1 := any_medium_rank fs hm
      have h2 := no_high_rank fs hh
      have h3 : sevRank "medium" = 1 := rfl
      omega
    · rw [if_neg hm]
      rw [Bool.not_eq_true] at hm
      have h1 := no_match_rank fs hh hm
      have h3 : sevRank "low" = 0 := rfl
      omega

end Rabbitry

namespace Rabbitry

/-- C8: the overall severity is the highest severity among matched rules
(high 2, medium 1, low 0), low when nothing matches; the diarrhea set
matches exactly the Enteritis/Diarrhea rule with overall medium, the
bloat-plus-head-tilt set matches two rules with overall high, and an
unrecognised set matches nothing with overall low. -/
theorem C8_overall_severity :
    (∀ ss : List String,
        sevRank (symptom_check ss).overall_severity
          = ((symptom_check ss).probable_conditions.map
              (fun f => sevRank f.severity)).foldr max 0)
    ∧ (∀ ss : List String, (symptom_check ss).probable_conditions = [] →
        (symptom_check ss).overall_severity = "low")
    ∧ (symptom_check ["diarrhea"]).probable_conditions
        = [⟨"Enteritis/Diarrhea", "medium",
            ["Isolate affected rabbit and ensure hydration",
             "Remove fresh greens; offer hay and water",
             "Consult vet for antidiarrheals if severe or persistent"],
            ["Monitor stool consistency and appetite daily"]⟩]
    ∧ (symptom_check ["diarrhea"]).overall_severity = "medium"
    ∧ (symptom_check ["bloat", "head tilt"]).probable_conditions.length = 2
    ∧ (symptom_check ["bloat", "head tilt"]).overall_severity = "high"
    ∧ (symptom_check ["purple fur"]).probable_conditions = []
    ∧ (symptom_check ["purple fur"]).overall_severity = "low" := by
  refine ⟨fun ss => overallSeverity_rank _, fun ss h => ?_,
    by decide, by decide, by decide, by decide, by decide, by decide⟩
  simp only [symptom_check] at h ⊢
  rw [h]
  rfl

/-- The no-match branch of the overall severity at a concrete input. -/
theorem C8_witness :
    (symptom_check ["glowing"]).overall_severity = "low" :=
  C8_overall_severity.2.1 ["glowing"] (by decide)

/-- Every pair built by the doe loop carries kindling today + 31. -/
theorem planPairs_expected_kindling (today : Int) (params : BreedingPlanInput)
    (lb : String → Option Int) (bucks : List Rabbit) (does : List Rabbit) :
    ∀ p ∈ planPairs today params lb bucks does, p.expected_kindling = today + 31 := by
  induction does with
  | nil => intro p hp; simp [planPairs] at hp
  | cons doe rest ih =>
    intro p hp
    rw [planPairs] at hp
    by_cases h1 : doeAgeSkip today params doe
    · rw [if_pos h1] at hp; exact ih p hp
    rw [if_neg h1] at hp
    by_cases h2 : cooldownSkip today params lb doe
    · rw [if_pos h2] at hp; exact ih p hp
    rw [if_neg h2] at hp
    cases h3 : scanBucks today params doe bucks with
    | none => rw [h3] at hp; exact ih p hp
    | some b =>
        rw [h3] at hp
        rcases List.mem_cons.mp hp with h | h
        · rw [h]; rfl
        · exact ih p h

/-- C9: every suggested pair has expected kindling today + 31, and the task
list is exactly one stub per pair with the fixed title, due date today,
assignee breeding, the doe tag, status todo, and notes carrying the expected
kindling date. -/
theorem C9_expected_kindling_and_tasks (today : Int) (params : BreedingPlanInput)
    (rabbits : List Rabbit) (breedings : List Breeding) :
    (∀ p ∈ (breeding_plan today params rabbits breedings).suggested_pairs,
        p.expected_kindling = today + 31)
    ∧ (breeding_plan today params rabbits breedings).tasks
        = (breeding_plan today params rabbits breedings).suggested_pairs.map
            (fun p =>
              { title := "Breed " ++ p.doe_tag ++ " to " ++ p.buck_tag
                due_date := today
                assigned_to := "breeding"
                rabbit_tag := p.doe_tag
                status := "todo"
                notes := "Expected kindling " ++ dateStr (today + 31) }) := by
  have hk := planPairs_expected_kindling today params (lastBred breedings)
    (candidateBucks rabbits) (candidateDoes rabbits)
  refine ⟨hk, ?_⟩
  show (planPairs today params (lastBred breedings) (candidateBucks rabbits)
      (candidateDoes rabbits)).map (taskOf today) = _
  apply List.map_congr_left
  intro p hp
  rw [taskOf, hk p hp]

/-- The single pair of a concrete plan has kindling 1031 = 1000 + 31. -/
theorem C9_witness :
    SuggestedPair.expected_kindling
        ⟨"D", "B", "Meets age and cooldown; not closely related", 1031⟩ = 1031 :=
  (C9_expected_kindling_and_tasks 1000 {}
    [⟨"D", "doe", none, .absent, none, none⟩,
     ⟨"B", "buck", none, .absent, none, none⟩] []).1
    ⟨"D", "B", "Meets age and cooldown; not closely related", 1031⟩ (by decide)

/-- C10: the summary counts does and bucks passing only the sex and status
base filters, and the suggested count equals the pair list length, which
equals the task list length; a doe too young to breed is still counted
eligible. -/
theorem C10_summary_counts (today : Int) (params : BreedingPlanInput)
    (rabbits : List Rabbit) (breedings : List Breeding) :
    ((breeding_plan today params rabbits breedings).summary.eligible_does
      = (rabbits.filter (fun r => r.sex == "doe" && statusOf r == "active")).length
    ∧ (breeding_plan today params rabbits breedings).summary.eligible_bucks
      = (rabbits.filter (fun r => r.sex == "buck" && statusOf r == "active")).length
    ∧ (breeding_plan today params rabbits breedings).summary.suggested_count
      = (breeding_plan today params rabbits breedings).suggested_pairs.length
    ∧ (breeding_plan today params rabbits breedings).tasks.length
      = (breeding_plan today params rabbits breedings).suggested_pairs.length)
    ∧ (breeding_plan 1000 {}
        [⟨"Y", "doe", none, .valid 990, none, none⟩,
         ⟨"B", "buck", none, .absent, none, none⟩] []).summary
      = ⟨1, 1, 0⟩ := by
  refine ⟨⟨rfl, rfl, rfl, ?_⟩, by decide⟩
  show ((planPairs today params (lastBred breedings) (candidateBucks rabbits)
      (candidateDoes rabbits)).map (taskOf today)).length = _
  rw [List.length_map]
  rfl

end Rabbitry
